import Mathlib

/-!
Shallow embedding of the Flask test-case-generation backend
(`app.py` and `admin.py`) and proofs about its specified behavior.

The document store is modelled as lists of records; `find_one` is
`List.find?`, `delete_one` is `List.eraseP`, `delete_many` is
`List.filter` on the negated filter, `update_one` updates the first
matching record, and `insert_one` appends.
-/

namespace FlaskSpec

/-! ## Data model -/

/-- A user record (`users_collection`). `uid` stands for the Mongo `_id`;
`role` is absent (`none`) for ordinary self-registered users. -/
structure User where
  uid : Nat
  username : String
  password : String
  email : String
  role : Option String
deriving DecidableEq

/-- A project record (`projects_collection`): generated `id`, owner username
(the `user` field in the source), name, context text, collaborator usernames. -/
structure Project where
  pid : String
  owner : String
  name : String
  context : String
  collaborators : List String
deriving DecidableEq

/-- A requirement record (`requirements_collection`). -/
structure Requirement where
  rid : String
  project_id : String
  owner : String
  title : String
  description : String
deriving DecidableEq

/-- A collaborator join record (`collaborators_collection`). -/
structure Collab where
  project_id : String
  username : String
  email : String
  added_by : String
deriving DecidableEq

/-- An API-key record (`api_keys_collection`); `project_id = none` models a
document without the field (the user-global scope). -/
structure ApiKeyRec where
  user : String
  project_id : Option String
  api_key : String
deriving DecidableEq

/-- The document store. -/
structure DB where
  users : List User
  projects : List Project
  requirements : List Requirement
  collabs : List Collab
  apiKeys : List ApiKeyRec
deriving DecidableEq

/-- A JSON response: success body message or an error with HTTP status. -/
inductive Resp where
  | ok (msg : String)
  | err (status : Nat) (msg : String)
deriving DecidableEq

/-- `Resp.isOk r` holds when `r` is a success response. -/
def Resp.isOk : Resp → Prop
  | .ok _ => True
  | .err _ _ => False

instance (r : Resp) : Decidable r.isOk := by
  cases r <;> simp [Resp.isOk] <;> infer_instance

/-! ## Auth: `login` (app.py 188-203) -/

/-- Response of `/login`: success carries username and email of the match. -/
inductive LoginResp where
  | ok (username email : String)
  | err (status : Nat) (msg : String)
deriving DecidableEq

/-- The credentials filter `{"username": u, "password": p}` (app.py 194). -/
def credMatches (username password : String) (u : User) : Bool :=
  decide (u.username = username ∧ u.password = password)

/-- `login`: `find_one({"username": u, "password": p})`; on a match the
session is set to the username, otherwise 401 "Invalid credentials". The
second component is the resulting session user. -/
def login (db : DB) (username password : String) : LoginResp × Option String :=
  match db.users.find? (credMatches username password) with
  | some u => (LoginResp.ok username u.email, some username)
  | none => (LoginResp.err 401 "Invalid credentials", none)

/-! ## Prompt builder: `generate_test_cases` (app.py 124-185) -/

/-- The built-in French example template (app.py 133-150). -/
def exampleFormatFr : String :=
  "\n**Cas fonctionnels**\nScenario (1) : Connexion OK avec des identifiants valides.\nPrécondition : L\x27utilisateur est inscrit avec un e-Mail valide et un MP.\nEtapes :\n    1. Accéder à la page de connexion.\n    2. Saisir l\x27e-Mail et le MP valides.\n    3. Cliquer sur \"Se connecter\".\nRésultat attendu : L\x27utilisateur est redirigé vers la page d\x27accueil.\n\nScenario (2) : Erreur de connexion avec des identifiants invalides.\nPrécondition : L\x27utilisateur a un e-Mail valide mais un mot de passe invalide.\nEtapes :\n    1. Accéder à la page de connexion.\n    2. Saisir un e-Mail valide et un MP invalide.\n    3. Cliquer sur \"Se connecter\".\nRésultat attendu : Un message d\x27erreur est affiché, l\x27utilisateur reste sur la page de connexion.\n"

/-- The built-in English example template (app.py 152-169). -/
def exampleFormatEn : String :=
  "\n**Functional Test Cases**\nScenario (1): Successful login with valid credentials.\nPrecondition: User is registered with a valid email and password.\nSteps:\n    1. Access the login page.\n    2. Enter valid email and password.\n    3. Click on \"Login\".\nExpected Result: User is redirected to the home page.\n\nScenario (2): Failed login with invalid credentials.\nPrecondition: User has a valid email but an incorrect password.\nSteps:\n    1. Access the login page.\n    2. Enter valid email and invalid password.\n    3. Click on \"Login\".\nExpected Result: An error message is displayed, and the user remains on the login page.\n"

/-- Language resolution (app.py 126-130): the detector is an oracle
(`langdetect.detect`); `none` models a detection exception. Any detected
language other than "en" collapses to "fr"; failure defaults to "fr". -/
def detectLang (detect : String → Option String) (input : String) : String :=
  match detect input with
  | some d => if d = "en" then "en" else "fr"
  | none => "fr"

/-- Default example block per resolved language (app.py 132-169). -/
def exampleFormatDefault (lang : String) : String :=
  if lang = "fr" then exampleFormatFr else exampleFormatEn

/-- Python `str.strip()`: drop whitespace from both ends. -/
def pyStrip (s : String) : String :=
  ⟨((s.data.dropWhile Char.isWhitespace).reverse.dropWhile Char.isWhitespace).reverse⟩

/-- Example-format choice (app.py 171-176). Python truthiness of
`example_case.strip()` is `pyStrip example_case ≠ ""`. -/
def chooseExampleFormat (format_type example_case dflt : String) : String :=
  if format_type = "custom" ∧ pyStrip example_case ≠ "" then example_case
  else if format_type = "gherkin" then
    (if pyStrip example_case ≠ "" then example_case else "Gherkin format")
  else dflt

/-- The final instruction f-string (app.py 178-184). -/
def mkInstruction (requirements context example_format : String) : String :=
  "\nGenerate test cases for the following requirement using the specified format.\n"
    ++ (if context ≠ "" then "Functional context: " ++ context else "")
    ++ " \nRequirement: " ++ requirements
    ++ "\nFormat:\n" ++ example_format ++ "\n"

/-- `generate_test_cases` (app.py 124-185), parameterized by the language
detector. -/
def generate_test_cases (detect : String → Option String)
    (requirements format_type context example_case : String) : String :=
  let lang := detectLang detect (context ++ " " ++ requirements)
  mkInstruction requirements context
    (chooseExampleFormat format_type example_case (exampleFormatDefault lang))

/-! ## Store helpers -/

/-- `update_one`: update the first record matching `p` with `f`. -/
def updateFirst (p : α → Bool) (f : α → α) : List α → List α
  | [] => []
  | a :: t => if p a then f a :: t else a :: updateFirst p f t

/-- Mongo `$addToSet` on an array field. -/
def addToSet (x : α) [DecidableEq α] (l : List α) : List α :=
  if x ∈ l then l else l ++ [x]

/-- Ownership-or-collaboration filter used by project reads (app.py 469-475):
`{"id": pid, "$or": [{"user": caller}, {"collaborators": caller}]}`. -/
def accessibleBy (caller pid : String) (p : Project) : Bool :=
  decide (p.pid = pid ∧ (p.owner = caller ∨ caller ∈ p.collaborators))

/-- Owner-only filter used by project mutations (app.py 358-361, 519-522):
`{"id": pid, "user": caller}`. -/
def ownedBy (caller pid : String) (p : Project) : Bool :=
  decide (p.pid = pid ∧ p.owner = caller)

/-- Lookup filter `{"username": s}`. -/
def hasUsername (s : String) (u : User) : Bool := u.username == s

/-- Lookup filter `{"id": pid}` on projects. -/
def hasPid (pid : String) (p : Project) : Bool := p.pid == pid

/-- Lookup filter `{"id": rid}` on requirements. -/
def hasRid (rid : String) (r : Requirement) : Bool := r.rid == rid

/-- Lookup filter `{"user": caller}` on API-key records. -/
def keyOfUser (caller : String) (k : ApiKeyRec) : Bool := k.user == caller

/-- `admin_required` role test (admin.py 15-26): the session user must exist
and have role "admin". -/
def isAdmin (caller : String) (db : DB) : Bool :=
  match db.users.find? (hasUsername caller) with
  | some u => u.role == some "admin"
  | none => false

/-! ## Project and requirement reads (app.py 464-483, 594-615) -/

/-- Response of `GET /projects/<id>`. -/
inductive ProjResp where
  | ok (p : Project) (is_owner : Bool)
  | err (status : Nat) (msg : String)
deriving DecidableEq

/-- `get_project` (app.py 464-483): a single `find_one` with the
ownership-or-collaboration filter; a miss (whether the project is absent or
merely inaccessible) yields the same 404 body. -/
def getProject (caller project_id : String) (db : DB) : ProjResp :=
  match db.projects.find? (accessibleBy caller project_id) with
  | none => ProjResp.err 404 "Project not found or access denied"
  | some p => ProjResp.ok p (p.owner == caller)

/-- Response of `GET /requirements/<id>`. -/
inductive ReqResp where
  | ok (r : Requirement)
  | err (status : Nat) (msg : String)
deriving DecidableEq

/-- `get_requirement` (app.py 594-615): first looks up the requirement by id
(404 "Requirement not found" on a miss), then checks access to its project
(403 "Access denied" on failure). -/
def getRequirement (caller requirement_id : String) (db : DB) : ReqResp :=
  match db.requirements.find? (hasRid requirement_id) with
  | none => ReqResp.err 404 "Requirement not found"
  | some r =>
    match db.projects.find? (accessibleBy caller r.project_id) with
    | none => ReqResp.err 403 "Access denied"
    | some _ => ReqResp.ok r

/-! ## Collaborators: `add_collaborator` (app.py 347-396) -/

/-- `add_collaborator`: requires a username, owner-only project lookup,
target user must exist, must not already be a collaborator; then `$addToSet`
on the collaborator array of the project and an insert into `collaborators_collection`. -/
def addCollaborator (caller project_id collaborator_username : String)
    (db : DB) : Resp × DB :=
  if collaborator_username = "" then (Resp.err 400 "Username is required", db)
  else
    match db.projects.find? (ownedBy caller project_id) with
    | none => (Resp.err 404 "Project not found or you don\x27t have permission", db)
    | some project =>
      match db.users.find? (hasUsername collaborator_username) with
      | none => (Resp.err 404 "User not found", db)
      | some collaborator =>
        if collaborator_username ∈ project.collaborators then
          (Resp.err 400 "User is already a collaborator", db)
        else
          (Resp.ok "Collaborator added successfully",
           { db with
             projects := updateFirst (hasPid project_id)
               (fun p => { p with collaborators := addToSet collaborator_username p.collaborators })
               db.projects,
             collabs := db.collabs ++
               [⟨project_id, collaborator_username, collaborator.email, caller⟩] })

/-! ## Project deletion (app.py 514-531, admin.py 314-332) -/

/-- Owner-endpoint `delete_project` (app.py 514-531): owner-only lookup, then
`delete_one` on the project, `delete_many` on its requirements and on its
collaborator records. -/
def deleteProject (caller project_id : String) (db : DB) : Resp × DB :=
  match db.projects.find? (ownedBy caller project_id) with
  | none => (Resp.err 404 "Project not found or you don\x27t have permission", db)
  | some _ =>
    (Resp.ok "Project deleted successfully",
     { db with
       projects := db.projects.eraseP (hasPid project_id),
       requirements := db.requirements.filter (fun r => decide (r.project_id ≠ project_id)),
       collabs := db.collabs.filter (fun c => decide (c.project_id ≠ project_id)) })

/-- Admin-endpoint `delete_project` (admin.py 314-332): admin gate, lookup by
id, then `delete_one` on the project and `delete_many` on its collaborator
records only — requirements are not touched. -/
def adminDeleteProject (caller project_id : String) (db : DB) : Resp × DB :=
  if ¬ isAdmin caller db then (Resp.err 403 "Admin access required", db)
  else
    match db.projects.find? (hasPid project_id) with
    | none => (Resp.err 404 "Project not found", db)
    | some _ =>
      (Resp.ok "Project and its collaborators deleted successfully",
       { db with
         projects := db.projects.eraseP (hasPid project_id),
         collabs := db.collabs.filter (fun c => decide (c.project_id ≠ project_id)) })

/-! ## Admin user deletion (admin.py 172-198) -/

/-- The `<user_id>` path argument: either a valid ObjectId (lookup by `_id`)
or a username (admin.py 178-187). -/
inductive UserSel where
  | byId (n : Nat)
  | byName (s : String)
deriving DecidableEq

/-- The lookup filter induced by the path argument. -/
def selMatches : UserSel → User → Bool
  | UserSel.byId n, u => u.uid == n
  | UserSel.byName s, u => u.username == s

/-- Admin `delete_user` (admin.py 172-198): admin gate, find the user, refuse
with 400 when the found user is the caller, otherwise `delete_one`. -/
def adminDeleteUser (caller : String) (sel : UserSel) (db : DB) : Resp × DB :=
  if ¬ isAdmin caller db then (Resp.err 403 "Admin access required", db)
  else
    match db.users.find? (selMatches sel) with
    | none => (Resp.err 404 "User not found", db)
    | some u =>
      if u.username = caller then
        (Resp.err 400 "Cannot delete your own account", db)
      else
        (Resp.ok "User deleted successfully",
         { db with users := db.users.eraseP (selMatches sel) })

/-! ## API keys (app.py 254-301) -/

/-- Python `s[-n:]`: the last `n` characters, or all of `s` when shorter. -/
def lastChars (n : Nat) (s : String) : String := ⟨s.data.drop (s.data.length - n)⟩

/-- Masking applied by `get_api_keys` (app.py 262): star prefix plus the last
four characters when the record has a key value, else the empty string. -/
def maskKey (k : ApiKeyRec) : String :=
  if k.api_key = "" then "" else "*****" ++ lastChars 4 k.api_key

/-- `get_api_keys` (app.py 254-264): the `api_key` fields of the records
records, masked. -/
def getApiKeys (caller : String) (db : DB) : List String :=
  (db.apiKeys.filter (keyOfUser caller)).map maskKey

/-- Filter for an API-key record of user `u` with scope `s`. -/
def scopeIs (u : String) (s : Option String) (k : ApiKeyRec) : Bool :=
  decide (k.user = u ∧ k.project_id = s)

/-- The (user, scope) filter built by `create_api_key` (app.py 277-281):
a falsy `project_id` (absent or empty) selects documents without the field. -/
def keyScopePred (caller pid : String) : ApiKeyRec → Bool :=
  scopeIs caller (if pid = "" then none else some pid)

/-- `create_api_key` (app.py 266-301): 400 without a key value; update the
existing record for the same (user, scope) in place, else insert a new one. -/
def createApiKey (caller pid api_key : String) (db : DB) : Resp × DB :=
  if api_key = "" then (Resp.err 400 "API key is required", db)
  else
    match db.apiKeys.find? (keyScopePred caller pid) with
    | some _ =>
      let keys := updateFirst (keyScopePred caller pid)
        (fun k => { k with api_key := api_key }) db.apiKeys
      (Resp.ok "API key saved successfully", { db with apiKeys := keys })
    | none =>
      let keys := db.apiKeys ++
        [⟨caller, (if pid = "" then none else some pid), api_key⟩]
      (Resp.ok "API key saved successfully", { db with apiKeys := keys })

/-! ## Streaming relays (app.py 700-727, 842-876) -/

/-- An upstream model-stream event: a text delta (`content_block_delta`),
the completion event (`message_stop`), or a raised exception. -/
inductive UpEvent where
  | delta (text : String)
  | stop
  | raise (msg : String)
deriving DecidableEq

/-- A server-sent event as emitted by the handlers: a chunk payload, an
error payload, or the literal `[DONE]` sentinel. -/
inductive SseEvent where
  | chunk (text : String)
  | errorEv (msg : String)
  | done
deriving DecidableEq

/-- The `generate` closure of `generate_test_cases_stream` (app.py 700-727),
run on a list of upstream events with accumulator `acc` (`full_response`):
returns the emitted events and the history texts inserted. Empty deltas are
skipped (`if event.delta.text:`); `message_stop` inserts the accumulated
text into history; an exception yields one error event and stops (earlier
history inserts are not rolled back). -/
def relayGen : List UpEvent → String → List SseEvent × List String
  | [], _ => ([], [])
  | UpEvent.delta t :: rest, acc =>
    if t = "" then relayGen rest acc
    else
      let r := relayGen rest (acc ++ t)
      (SseEvent.chunk t :: r.1, r.2)
  | UpEvent.stop :: rest, acc =>
    let r := relayGen rest acc
    (r.1, acc :: r.2)
  | UpEvent.raise m :: _, _ => ([SseEvent.errorEv m], [])

/-- The `generate` closure of `chat_with_assistant` (app.py 842-876): the
loop only handles deltas; after a normal end of stream the accumulated text
is inserted into history; an exception yields one error event and skips the
insert; the `finally` block always emits `[DONE]` last. -/
def chatGen : List UpEvent → String → List SseEvent × List String
  | [], acc => ([SseEvent.done], [acc])
  | UpEvent.delta t :: rest, acc =>
    if t = "" then chatGen rest acc
    else
      let r := chatGen rest (acc ++ t)
      (SseEvent.chunk t :: r.1, r.2)
  | UpEvent.stop :: rest, acc => chatGen rest acc
  | UpEvent.raise m :: _, _ => ([SseEvent.errorEv m, SseEvent.done], [])

/-- Event classifiers used to state stream properties. -/
def isDoneEv : SseEvent → Bool
  | SseEvent.done => true
  | _ => false

def isErrEv : SseEvent → Bool
  | SseEvent.errorEv _ => true
  | _ => false

def isRaise : UpEvent → Bool
  | UpEvent.raise _ => true
  | _ => false

/-! ## Helper lemmas -/

/-- `String.join` distributes over cons. -/
theorem string_join_cons (s : String) (l : List String) :
    String.join (s :: l) = s ++ String.join l := by
  apply String.ext
  simp [String.join_eq]

/-- Relaying a run of non-empty deltas followed by `message_stop` emits one
chunk per delta in order and inserts exactly one history record holding the
accumulated concatenation. -/
theorem relayGen_deltas_stop (fs : List String) (h : ∀ f ∈ fs, f ≠ "") :
    ∀ acc, relayGen (fs.map UpEvent.delta ++ [UpEvent.stop]) acc
      = (fs.map SseEvent.chunk, [acc ++ String.join fs]) := by
  induction fs with
  | nil =>
    intro acc
    simp [relayGen, String.join, String.append_empty]
  | cons f fs ih =>
    intro acc
    have hf : f ≠ "" := h f (by simp)
    have ih2 := ih (fun g hg => h g (by simp [hg])) (acc ++ f)
    simp only [List.map_cons, List.cons_append, relayGen, if_neg hf,
      List.append_eq, ih2, string_join_cons, String.append_assoc]

/-- Relaying a run of non-empty deltas that ends in a raised exception emits
the chunks, then a single error event, and inserts no history record. -/
theorem relayGen_deltas_raise (fs : List String) (m : String) (h : ∀ f ∈ fs, f ≠ "") :
    ∀ acc, relayGen (fs.map UpEvent.delta ++ [UpEvent.raise m]) acc
      = (fs.map SseEvent.chunk ++ [SseEvent.errorEv m], []) := by
  induction fs with
  | nil => intro acc; simp [relayGen]
  | cons f fs ih =>
    intro acc
    have hf : f ≠ "" := h f (by simp)
    have ih2 := ih (fun g hg => h g (by simp [hg])) (acc ++ f)
    simp only [List.map_cons, List.cons_append, relayGen, if_neg hf,
      List.append_eq, ih2]

/-- Event counts of the generation-stream relay: never a `[DONE]`, and an
error event exactly when the upstream raises. -/
theorem relayGen_counts (evs : List UpEvent) : ∀ acc,
    (relayGen evs acc).1.countP isDoneEv = 0
    ∧ (relayGen evs acc).1.countP isErrEv = (if evs.any isRaise then 1 else 0) := by
  induction evs with
  | nil => intro acc; simp [relayGen]
  | cons e rest ih =>
    intro acc
    cases e with
    | delta t =>
      by_cases ht : t = ""
      · simpa [relayGen, ht, isRaise] using ih acc
      · have := ih (acc ++ t)
        simp [relayGen, ht, isRaise, List.countP_cons, isDoneEv, isErrEv, this.1, this.2]
    | stop =>
      simpa [relayGen, isRaise] using ih acc
    | raise m =>
      simp [relayGen, isRaise, List.countP_cons, isDoneEv, isErrEv]

/-- Shape of a chat stream: a `[DONE]`-free prefix followed by exactly one
final `[DONE]`; the prefix holds an error event exactly when the upstream
raises. -/
theorem chatGen_shape (evs : List UpEvent) : ∀ acc, ∃ l,
    (chatGen evs acc).1 = l ++ [SseEvent.done]
    ∧ l.countP isDoneEv = 0
    ∧ l.countP isErrEv = (if evs.any isRaise then 1 else 0) := by
  induction evs with
  | nil => intro acc; exact ⟨[], by simp [chatGen]⟩
  | cons e rest ih =>
    intro acc
    cases e with
    | delta t =>
      by_cases ht : t = ""
      · obtain ⟨l, h1, h2, h3⟩ := ih acc
        exact ⟨l, by simp [chatGen, ht, h1, h2, h3, isRaise]⟩
      · obtain ⟨l, h1, h2, h3⟩ := ih (acc ++ t)
        refine ⟨SseEvent.chunk t :: l, ?_⟩
        simp [chatGen, ht, h1, h2, h3, isRaise, List.countP_cons, isDoneEv, isErrEv]
    | stop =>
      obtain ⟨l, h1, h2, h3⟩ := ih acc
      exact ⟨l, by simp [chatGen, h1, h2, h3, isRaise]⟩
    | raise m =>
      refine ⟨[SseEvent.errorEv m], ?_⟩
      simp [chatGen, isRaise, List.countP_cons, isDoneEv, isErrEv]

/-! ## Claim theorems -/

/-- Claim C1: in a run of the test-case generation stream whose upstream
emits the (non-empty) text fragments `fs` and then completes, the client
receives exactly the chunk events for `fs` in order and exactly one history
record is written, holding the concatenation of the fragments; if the
upstream instead raises mid-stream, the client receives the chunks followed
by exactly one error event, the stream terminates, and no history record is
written. -/
theorem relay_stream_behavior (fs : List String) (m : String)
    (h : ∀ f ∈ fs, f ≠ "") :
    relayGen (fs.map UpEvent.delta ++ [UpEvent.stop]) ""
      = (fs.map SseEvent.chunk, [String.join fs])
  ∧ relayGen (fs.map UpEvent.delta ++ [UpEvent.raise m]) ""
      = (fs.map SseEvent.chunk ++ [SseEvent.errorEv m], []) := by
  refine ⟨?_, relayGen_deltas_raise fs m h ""⟩
  simpa [String.empty_append] using relayGen_deltas_stop fs h ""

/-- Witness for C1: the example given by the spec, fragments "Hello" and " world"
and an upstream error "boom". -/
theorem relay_stream_behavior_witness :
    relayGen (["Hello", " world"].map UpEvent.delta ++ [UpEvent.stop]) ""
      = (["Hello", " world"].map SseEvent.chunk, [String.join ["Hello", " world"]])
  ∧ relayGen (["Hello", " world"].map UpEvent.delta ++ [UpEvent.raise "boom"]) ""
      = (["Hello", " world"].map SseEvent.chunk ++ [SseEvent.errorEv "boom"], []) :=
  relay_stream_behavior ["Hello", " world"] "boom" (by decide)

/-- Claim C7 counterexample: a chat stream whose upstream raises contains
BOTH an error payload and the `[DONE]` sentinel, contradicting "never both
in the same stream". -/
theorem chat_stream_error_and_done :
    SseEvent.errorEv "boom" ∈ (chatGen [UpEvent.raise "boom"] "").1
    ∧ SseEvent.done ∈ (chatGen [UpEvent.raise "boom"] "").1 := by
  constructor <;> decide

/-- Claim C7 (amended): a generation stream never contains `[DONE]` and
contains exactly one error event when the upstream raises and none
otherwise (so a successful generation stream has no terminal event at all);
a chat stream always contains exactly one `[DONE]`, as its final event, and
additionally exactly one error event when the upstream raises — so error
and `[DONE]` can both occur in one chat stream. -/
theorem stream_terminal_events (evs : List UpEvent) (acc : String) :
    ((relayGen evs acc).1.countP isDoneEv = 0
     ∧ (relayGen evs acc).1.countP isErrEv = (if evs.any isRaise then 1 else 0))
  ∧ ((chatGen evs acc).1.countP isDoneEv = 1
     ∧ (chatGen evs acc).1.getLast? = some SseEvent.done
     ∧ (chatGen evs acc).1.countP isErrEv = (if evs.any isRaise then 1 else 0)) := by
  refine ⟨relayGen_counts evs acc, ?_⟩
  obtain ⟨l, h1, h2, h3⟩ := chatGen_shape evs acc
  refine ⟨?_, ?_, ?_⟩
  · simp [h1, List.countP_append, h2, isDoneEv]
  · simp [h1, List.getLast?_concat]
  · simp [h1, List.countP_append, h3, isErrEv]

/-! ## Concrete store used by counterexamples and witnesses -/

/-- A concrete store: admin "alice" owns project "p1" with requirement "r1",
collaborator "bob", and one user-global API key; "eve" is an unrelated
authenticated user. -/
def dbOwned : DB :=
  { users := [⟨1, "alice", "pw", "alice@example.com", some "admin"⟩,
              ⟨2, "bob", "pw2", "bob@example.com", none⟩,
              ⟨3, "eve", "pw3", "eve@example.com", none⟩],
    projects := [⟨"p1", "alice", "Proj", "ctx", ["bob"]⟩],
    requirements := [⟨"r1", "p1", "alice", "T", "D"⟩],
    collabs := [⟨"p1", "bob", "bob@example.com", "alice"⟩],
    apiKeys := [⟨"alice", none, "sk-abcdef"⟩] }

/-- The same store with the requirement absent. -/
def dbNoReq : DB := { dbOwned with requirements := [] }

/-! ## C2: project-deletion cascade -/

/-- Claim C2 counterexample: the admin endpoint deletes project "p1"
successfully, yet requirement "r1" with `project_id = "p1"` is still in
the store afterwards — the admin endpoint does not cascade to
requirements. -/
theorem admin_delete_project_keeps_requirements :
    (adminDeleteProject "alice" "p1" dbOwned).1.isOk
    ∧ (⟨"r1", "p1", "alice", "T", "D"⟩ : Requirement)
        ∈ (adminDeleteProject "alice" "p1" dbOwned).2.requirements := by
  constructor <;> decide

/-- Claim C2 (amended): after a successful owner-endpoint deletion no
requirement and no collaborator record for the project remains; after a
successful admin-endpoint deletion no collaborator record remains but the
requirements are left untouched. -/
theorem delete_project_cascade (caller pid : String) (db : DB) :
    ((deleteProject caller pid db).1.isOk →
       (deleteProject caller pid db).2.requirements.countP
           (fun r => r.project_id == pid) = 0
       ∧ (deleteProject caller pid db).2.collabs.countP
           (fun c => c.project_id == pid) = 0)
  ∧ ((adminDeleteProject caller pid db).1.isOk →
       (adminDeleteProject caller pid db).2.collabs.countP
           (fun c => c.project_id == pid) = 0
       ∧ (adminDeleteProject caller pid db).2.requirements = db.requirements) := by
  constructor
  · intro hok
    cases hf : db.projects.find? (ownedBy caller pid) with
    | none => simp [deleteProject, hf, Resp.isOk] at hok
    | some p =>
      simp only [deleteProject, hf]
      refine ⟨List.countP_eq_zero.mpr ?_, List.countP_eq_zero.mpr ?_⟩ <;>
      · intro x hx
        have hx2 := (List.mem_filter.mp hx).2
        simpa using hx2
  · intro hok
    by_cases ha : isAdmin caller db
    · cases hf : db.projects.find? (hasPid pid) with
      | none => simp [adminDeleteProject, ha, hf, Resp.isOk] at hok
      | some p =>
        simp only [adminDeleteProject, ha, not_true_eq_false, if_false, hf]
        refine ⟨List.countP_eq_zero.mpr ?_, by trivial⟩
        intro x hx
        have hx2 := (List.mem_filter.mp hx).2
        simpa using hx2
    · simp [adminDeleteProject, ha, Resp.isOk] at hok

/-- Witness for the amended C2 at the concrete store: both endpoints succeed
on "p1"; the owner endpoint leaves no requirement and no collaborator record
for "p1", the admin endpoint leaves no collaborator record and keeps the
requirements list unchanged. -/
theorem delete_project_cascade_witness :
    ((deleteProject "alice" "p1" dbOwned).2.requirements.countP
         (fun r => r.project_id == "p1") = 0
     ∧ (deleteProject "alice" "p1" dbOwned).2.collabs.countP
         (fun c => c.project_id == "p1") = 0)
  ∧ ((adminDeleteProject "alice" "p1" dbOwned).2.collabs.countP
         (fun c => c.project_id == "p1") = 0
     ∧ (adminDeleteProject "alice" "p1" dbOwned).2.requirements
         = dbOwned.requirements) :=
  ⟨(delete_project_cascade "alice" "p1" dbOwned).1 (by decide),
   (delete_project_cascade "alice" "p1" dbOwned).2 (by decide)⟩

/-! ## C3: unauthorized responses and resource existence -/

/-- Claim C3 counterexample: for the unauthorized caller "eve", reading
requirement "r1" yields 403 "Access denied" when it exists but 404
"Requirement not found" when it does not — the two responses differ, so the
unauthorized caller learns whether the requirement exists. -/
theorem requirement_access_reveals_existence :
    getRequirement "eve" "r1" dbOwned = ReqResp.err 403 "Access denied"
    ∧ getRequirement "eve" "r1" dbNoReq = ReqResp.err 404 "Requirement not found"
    ∧ getRequirement "eve" "r1" dbOwned ≠ getRequirement "eve" "r1" dbNoReq := by
  refine ⟨?_, ?_, ?_⟩ <;> decide

/-- Claim C3 (amended): for project reads the unauthorized caller gets the
identical 404 response whether or not the project exists; for requirement
reads the unauthorized caller gets 404 when the requirement does not exist
but 403 when it exists in an inaccessible project, so requirement existence
is revealed. -/
theorem unauthorized_response_uniformity (db : DB) (caller pid rid : String) :
    ((∀ p ∈ db.projects, accessibleBy caller pid p = false) →
       getProject caller pid db = ProjResp.err 404 "Project not found or access denied")
  ∧ (db.requirements.find? (hasRid rid) = none →
       getRequirement caller rid db = ReqResp.err 404 "Requirement not found")
  ∧ (∀ r, db.requirements.find? (hasRid rid) = some r →
       (∀ p ∈ db.projects, accessibleBy caller r.project_id p = false) →
       getRequirement caller rid db = ReqResp.err 403 "Access denied") := by
  refine ⟨?_, ?_, ?_⟩
  · intro h
    have hf : db.projects.find? (accessibleBy caller pid) = none :=
      List.find?_eq_none.mpr (fun p hp => by simp [h p hp])
    simp [getProject, hf]
  · intro h
    simp [getRequirement, h]
  · intro r hr h
    have hf : db.projects.find? (accessibleBy caller r.project_id) = none :=
      List.find?_eq_none.mpr (fun p hp => by simp [h p hp])
    simp [getRequirement, hr, hf]

/-- Witness for the amended C3 at the concrete store: "eve" gets the uniform
404 for the (existing, inaccessible) project "p1", 404 for the nonexistent
requirement "rX", and 403 for the existing requirement "r1". -/
theorem unauthorized_response_uniformity_witness :
    getProject "eve" "p1" dbOwned = ProjResp.err 404 "Project not found or access denied"
  ∧ getRequirement "eve" "rX" dbOwned = ReqResp.err 404 "Requirement not found"
  ∧ getRequirement "eve" "r1" dbOwned = ReqResp.err 403 "Access denied" :=
  ⟨(unauthorized_response_uniformity dbOwned "eve" "p1" "rX").1 (by decide),
   (unauthorized_response_uniformity dbOwned "eve" "p1" "rX").2.1 (by decide),
   (unauthorized_response_uniformity dbOwned "eve" "p1" "r1").2.2
     ⟨"r1", "p1", "alice", "T", "D"⟩ (by decide) (by decide)⟩

/-! ## C4: collaborator records reference existing users -/

/-- The referential invariant: the username of every collaborator record names an
existing user. -/
def CollabRefsOk (db : DB) : Prop :=
  ∀ c ∈ db.collabs, ∃ u ∈ db.users, u.username = c.username

instance (db : DB) : Decidable (CollabRefsOk db) := by
  unfold CollabRefsOk; infer_instance

/-- Claim C4 counterexample: the invariant holds of the concrete store, the
admin deletion of user "bob" succeeds, and afterwards the collaborator
record for "bob" is dangling — admin user deletion does not clean up
collaborator records. -/
theorem delete_user_dangling_collaborator :
    CollabRefsOk dbOwned
    ∧ (adminDeleteUser "alice" (UserSel.byName "bob") dbOwned).1.isOk
    ∧ ¬ CollabRefsOk (adminDeleteUser "alice" (UserSel.byName "bob") dbOwned).2 := by
  refine ⟨?_, ?_, ?_⟩ <;> decide

/-- Claim C4 (amended): `add_collaborator` preserves the invariant — it only
ever inserts a collaborator record for a username found in the user store —
but admin user deletion can leave dangling collaborator records behind. -/
theorem add_collaborator_preserves_user_refs (caller pid cu : String) (db : DB)
    (h : CollabRefsOk db) : CollabRefsOk (addCollaborator caller pid cu db).2 := by
  by_cases hcu : cu = ""
  · simpa [addCollaborator, hcu] using h
  · cases hp : db.projects.find? (ownedBy caller pid) with
    | none => simpa [addCollaborator, hcu, hp] using h
    | some project =>
      cases huser : db.users.find? (hasUsername cu) with
      | none => simpa [addCollaborator, hcu, hp, huser] using h
      | some collaborator =>
        by_cases hmem : cu ∈ project.collaborators
        · simpa [addCollaborator, hcu, hp, huser, hmem] using h
        · unfold CollabRefsOk
          simp only [addCollaborator, hcu, hp, huser, hmem, if_false, ite_false]
          intro c hc
          rcases List.mem_append.mp hc with hin | hnew
          · exact h c hin
          · have hu : collaborator.username = cu := by
              have := List.find?_some huser
              simpa [hasUsername] using this
            have hcol : c.username = cu := by
              simp only [List.mem_singleton] at hnew
              simp [hnew]
            exact ⟨collaborator, List.mem_of_find?_eq_some huser, by rw [hu, hcol]⟩

/-- Witness for the amended C4: adding existing user "eve" as collaborator
of "p1" keeps the referential invariant. -/
theorem add_collaborator_preserves_user_refs_witness :
    CollabRefsOk (addCollaborator "alice" "p1" "eve" dbOwned).2 :=
  add_collaborator_preserves_user_refs "alice" "p1" "eve" dbOwned (by decide)

/-! ## C5: prompt builder -/

/-- Claim C5 counterexample: with format selector "custom" and the
non-empty (but whitespace-only) example text " ", the output is NOT the
instruction with the example text as its format block — `strip()` makes
the example falsy and the default template is used instead. -/
theorem custom_blank_example_not_verbatim :
    generate_test_cases (fun _ => some "en") "req" "custom" "" " "
      ≠ mkInstruction "req" "" " " := by decide

/-- Claim C5 (amended): English detection selects the English default
template, French detection and detection failure select the French one;
and with format selector "custom" and a non-blank example text (non-empty
after stripping whitespace) the example text is used verbatim as the
format block of the produced instruction. -/
theorem prompt_builder_templates (detect : String → Option String)
    (requirements format_type context example_case : String) :
    (detect (context ++ " " ++ requirements) = some "en" →
       exampleFormatDefault (detectLang detect (context ++ " " ++ requirements))
         = exampleFormatEn)
  ∧ (detect (context ++ " " ++ requirements) = some "fr" →
       exampleFormatDefault (detectLang detect (context ++ " " ++ requirements))
         = exampleFormatFr)
  ∧ (detect (context ++ " " ++ requirements) = none →
       exampleFormatDefault (detectLang detect (context ++ " " ++ requirements))
         = exampleFormatFr)
  ∧ (format_type = "custom" → pyStrip example_case ≠ "" →
       generate_test_cases detect requirements format_type context example_case
         = mkInstruction requirements context example_case) := by
  refine ⟨?_, ?_, ?_, ?_⟩
  · intro h; simp [detectLang, h, exampleFormatDefault]
  · intro h; simp [detectLang, h, exampleFormatDefault]
  · intro h; simp [detectLang, h, exampleFormatDefault]
  · intro hf he
    simp [generate_test_cases, chooseExampleFormat, hf, he]

/-- Witness for the amended C5: each template selection and the verbatim
custom case at concrete inputs. -/
theorem prompt_builder_templates_witness :
    exampleFormatDefault (detectLang (fun _ => some "en") ("" ++ " " ++ "r"))
      = exampleFormatEn
  ∧ exampleFormatDefault (detectLang (fun _ => some "fr") ("" ++ " " ++ "r"))
      = exampleFormatFr
  ∧ exampleFormatDefault (detectLang (fun _ => none) ("" ++ " " ++ "r"))
      = exampleFormatFr
  ∧ generate_test_cases (fun _ => some "en") "r" "custom" "" "My format"
      = mkInstruction "r" "" "My format" :=
  ⟨(prompt_builder_templates (fun _ => some "en") "r" "custom" "" "My format").1 rfl,
   (prompt_builder_templates (fun _ => some "fr") "r" "custom" "" "My format").2.1 rfl,
   (prompt_builder_templates (fun _ => none) "r" "custom" "" "My format").2.2.1 rfl,
   (prompt_builder_templates (fun _ => some "en") "r" "custom" "" "My format").2.2.2
     rfl (by decide)⟩

/-! ## C6: login -/

/-- Claim C6: a (username, password) pair matching a stored user logs in
successfully and sets the session to that username; every mismatching pair
gets the identical 401 "Invalid credentials" response, so the response
reveals nothing about which field was wrong. -/
theorem login_success_and_uniform_failure (db : DB) (username password u2 p2 : String) :
    ((∃ u ∈ db.users, u.username = username ∧ u.password = password) →
       ∃ e, login db username password = (LoginResp.ok username e, some username))
  ∧ ((∀ u ∈ db.users, ¬ (u.username = username ∧ u.password = password)) →
       login db username password = (LoginResp.err 401 "Invalid credentials", none))
  ∧ ((∀ u ∈ db.users, ¬ (u.username = username ∧ u.password = password)) →
     (∀ u ∈ db.users, ¬ (u.username = u2 ∧ u.password = p2)) →
       login db username password = login db u2 p2) := by
  have hnone : ∀ un pw, (∀ u ∈ db.users, ¬ (u.username = un ∧ u.password = pw)) →
      db.users.find? (credMatches un pw) = none := fun un pw h =>
    List.find?_eq_none.mpr (fun u hu => by simpa [credMatches] using h u hu)
  refine ⟨?_, ?_, ?_⟩
  · rintro ⟨u, hu, hname, hpw⟩
    cases hf : db.users.find? (credMatches username password) with
    | none =>
      have := List.find?_eq_none.mp hf u hu
      simp [credMatches, hname, hpw] at this
    | some w => exact ⟨w.email, by simp [login, hf]⟩
  · intro h
    simp [login, hnone username password h]
  · intro h1 h2
    simp [login, hnone username password h1, hnone u2 p2 h2]

/-- Witness for C6 at the concrete store: "alice"/"pw" succeeds; a wrong
password and a wrong username both give the identical 401 response. -/
theorem login_success_and_uniform_failure_witness :
    (∃ e, login dbOwned "alice" "pw" = (LoginResp.ok "alice" e, some "alice"))
  ∧ login dbOwned "alice" "bad" = (LoginResp.err 401 "Invalid credentials", none)
  ∧ login dbOwned "alice" "bad" = login dbOwned "nosuch" "pw" :=
  ⟨(login_success_and_uniform_failure dbOwned "alice" "pw" "nosuch" "pw").1
     ⟨⟨1, "alice", "pw", "alice@example.com", some "admin"⟩, by decide⟩,
   (login_success_and_uniform_failure dbOwned "alice" "bad" "nosuch" "pw").2.1 (by decide),
   (login_success_and_uniform_failure dbOwned "alice" "bad" "nosuch" "pw").2.2
     (by decide) (by decide)⟩

/-! ## C8: admin user deletion never deletes the caller -/

/-- `eraseP` keeps every element other than the first one found by `find?`. -/
theorem mem_eraseP_of_find? {α} (p : α → Bool) (l : List α) (m : α)
    (hf : l.find? p = some m) : ∀ u ∈ l, u ≠ m → u ∈ l.eraseP p := by
  induction l with
  | nil => simp at hf
  | cons a t ih =>
    intro u hu hne
    by_cases hpa : p a
    · rw [List.find?_cons_of_pos _ hpa] at hf
      injection hf with hma
      rw [List.eraseP_cons_of_pos hpa]
      rcases List.mem_cons.mp hu with h | h
      · exact absurd (h.trans hma) hne
      · exact h
    · rw [List.find?_cons_of_neg _ hpa] at hf
      rw [List.eraseP_cons_of_neg hpa]
      rcases List.mem_cons.mp hu with h | h
      · exact h ▸ List.mem_cons_self a _
      · exact List.mem_cons_of_mem a (ih hf u h hne)

/-- Claim C8: the user record of the caller is never deleted by the admin
user-deletion endpoint, and whenever the targeted user is the caller the
operation returns an error and leaves the user store unchanged. -/
theorem admin_never_deletes_self (caller : String) (sel : UserSel) (db : DB) :
    (∀ u ∈ db.users, u.username = caller → u ∈ (adminDeleteUser caller sel db).2.users)
  ∧ (∀ u, db.users.find? (selMatches sel) = some u → u.username = caller →
       (adminDeleteUser caller sel db).2 = db
       ∧ ∃ st msg, (adminDeleteUser caller sel db).1 = Resp.err st msg) := by
  by_cases ha : isAdmin caller db
  · cases hf : db.users.find? (selMatches sel) with
    | none =>
      refine ⟨fun u hu _ => by simpa [adminDeleteUser, ha, hf] using hu, ?_⟩
      intro u hu
      simp at hu
    | some m =>
      by_cases hm : m.username = caller
      · refine ⟨fun u hu _ => by simpa [adminDeleteUser, ha, hf, hm] using hu, ?_⟩
        intro u hu hcall
        refine ⟨by simp [adminDeleteUser, ha, hf, hm], 400,
          "Cannot delete your own account", by simp [adminDeleteUser, ha, hf, hm]⟩
      · refine ⟨?_, ?_⟩
        · intro u hu hcall
          have hne : u ≠ m := fun e => hm (e ▸ hcall)
          simpa [adminDeleteUser, ha, hf, hm] using
            mem_eraseP_of_find? (selMatches sel) db.users m hf u hu hne
        · intro u hu hcall
          injection hu with h
          subst h
          exact absurd hcall hm
  · refine ⟨fun u hu _ => by simpa [adminDeleteUser, ha] using hu, ?_⟩
    intro u _ _
    exact ⟨by simp [adminDeleteUser, ha], 403, "Admin access required",
      by simp [adminDeleteUser, ha]⟩

/-- Witness for C8: admin "alice" targeting herself gets an error and the
store is unchanged; her record is still present afterwards. -/
theorem admin_never_deletes_self_witness :
    ((⟨1, "alice", "pw", "alice@example.com", some "admin"⟩ : User)
        ∈ (adminDeleteUser "alice" (UserSel.byName "alice") dbOwned).2.users)
  ∧ ((adminDeleteUser "alice" (UserSel.byName "alice") dbOwned).2 = dbOwned
     ∧ ∃ st msg,
         (adminDeleteUser "alice" (UserSel.byName "alice") dbOwned).1 = Resp.err st msg) :=
  ⟨(admin_never_deletes_self "alice" (UserSel.byName "alice") dbOwned).1
     ⟨1, "alice", "pw", "alice@example.com", some "admin"⟩ (by decide) rfl,
   (admin_never_deletes_self "alice" (UserSel.byName "alice") dbOwned).2
     ⟨1, "alice", "pw", "alice@example.com", some "admin"⟩ (by decide) rfl⟩

/-! ## C9: API-key listing masks stored keys -/

/-- Claim C9: every `api_key` field returned by the listing endpoint is
either the empty string (record without a key value) or the string "*****"
followed by the last four characters of the stored key; it is always
derived from a stored record of the caller by that masking rule. -/
theorem api_keys_masked (caller : String) (db : DB) :
    ∀ m ∈ getApiKeys caller db, ∃ k ∈ db.apiKeys, k.user = caller
      ∧ m = (if k.api_key = "" then "" else "*****" ++ lastChars 4 k.api_key) := by
  intro m hm
  simp only [getApiKeys, List.mem_map] at hm
  obtain ⟨k, hk, hmask⟩ := hm
  refine ⟨k, (List.mem_filter.mp hk).1, ?_, ?_⟩
  · have := (List.mem_filter.mp hk).2
    simpa [keyOfUser] using this
  · rw [← hmask]
    rfl

/-- Witness for C9: the stored key "sk-abcdef" is listed as "*****cdef". -/
theorem api_keys_masked_witness :
    ∃ k ∈ dbOwned.apiKeys, k.user = "alice"
      ∧ "*****cdef" = (if k.api_key = "" then "" else "*****" ++ lastChars 4 k.api_key) :=
  api_keys_masked "alice" dbOwned "*****cdef" (by decide)

/-! ## C10: at most one API key per (user, scope) -/

/-- The invariant: at most one API-key record per (user, scope) pair. -/
def ApiKeyScopeUnique (db : DB) : Prop :=
  ∀ (u : String) (s : Option String), db.apiKeys.countP (scopeIs u s) ≤ 1

/-- `updateFirst` keeps the list length. -/
theorem length_updateFirst (p : α → Bool) (f : α → α) (l : List α) :
    (updateFirst p f l).length = l.length := by
  induction l with
  | nil => rfl
  | cons a t ih => by_cases hpa : p a <;> simp [updateFirst, hpa, ih]

/-- `updateFirst` preserves any count whose predicate `f` leaves stable. -/
theorem countP_updateFirst (p q : α → Bool) (f : α → α)
    (hq : ∀ a, q (f a) = q a) (l : List α) :
    (updateFirst p f l).countP q = l.countP q := by
  induction l with
  | nil => rfl
  | cons a t ih =>
    by_cases hpa : p a <;> simp [updateFirst, hpa, List.countP_cons, ih, hq]

/-- Claim C10: `create_api_key` preserves the at-most-one-record-per-scope
invariant, and when a record for the requested (user, scope) already exists
it is updated in place — the number of records does not change. -/
theorem create_api_key_scope_unique (caller pid key : String) (db : DB)
    (h : ApiKeyScopeUnique db) :
    ApiKeyScopeUnique (createApiKey caller pid key db).2
  ∧ (∀ r, db.apiKeys.find? (keyScopePred caller pid) = some r →
       (createApiKey caller pid key db).2.apiKeys.length = db.apiKeys.length) := by
  by_cases hk : key = ""
  · exact ⟨by simpa [createApiKey, hk] using h, fun r _ => by simp [createApiKey, hk]⟩
  · cases hf : db.apiKeys.find? (keyScopePred caller pid) with
    | some r =>
      constructor
      · intro u s
        simp only [createApiKey, hk, hf, reduceIte]
        rw [countP_updateFirst (keyScopePred caller pid) (scopeIs u s)
          (fun k => { k with api_key := key }) (fun a => rfl) db.apiKeys]
        exact h u s
      · intro r2 _
        simp only [createApiKey, hk, hf, reduceIte]
        exact length_updateFirst ..
    | none =>
      refine ⟨?_, ?_⟩
      · intro u s
        simp only [createApiKey, hk, hf, reduceIte]
        rw [List.countP_append]
        by_cases hnew : scopeIs u s ⟨caller, (if pid = "" then none else some pid), key⟩
        · obtain ⟨hu, hs⟩ : caller = u ∧ (if pid = "" then none else some pid) = s := by
            simpa [scopeIs] using hnew
          subst hu
          subst hs
          have hzero : db.apiKeys.countP (scopeIs caller (if pid = "" then none else some pid)) = 0 := by
            rw [List.countP_eq_zero]
            intro k hkmem
            have := List.find?_eq_none.mp hf k hkmem
            simpa [keyScopePred] using this
          simp [hzero, List.countP_cons, hnew]
        · have hone : List.countP (scopeIs u s)
              [(⟨caller, (if pid = "" then none else some pid), key⟩ : ApiKeyRec)] = 0 := by
            simp [List.countP_cons, hnew]
          rw [hone]
          simpa using h u s
      · intro r hr
        simp at hr

/-- Witness for C10: posting a new key for the already-occupied user-global
scope of "alice" keeps the invariant and does not grow the collection. -/
theorem create_api_key_scope_unique_witness :
    ApiKeyScopeUnique (createApiKey "alice" "" "sk-new" dbOwned).2
  ∧ (createApiKey "alice" "" "sk-new" dbOwned).2.apiKeys.length
      = dbOwned.apiKeys.length :=
  ⟨(create_api_key_scope_unique "alice" "" "sk-new" dbOwned
      (fun u s => le_trans (List.countP_le_length _) (by decide))).1,
   (create_api_key_scope_unique "alice" "" "sk-new" dbOwned
      (fun u s => le_trans (List.countP_le_length _) (by decide))).2
     ⟨"alice", none, "sk-abcdef"⟩ (by decide)⟩

end FlaskSpec
